import Mathlib

/-!
Shallow embedding of the loan & KYC core of the rn-fintech-backend repository.

The persistent store is modelled as plain lists of rows (one list per table),
threaded explicitly through each operation.  JavaScript `throw` of an error
object carrying a `status` code is modelled as `Except ApiError`; JavaScript
truthiness tests on optional strings / numbers are modelled by explicit
`truthyStr` / `truthyInt` helpers.  Timestamps are natural numbers supplied by
the caller (`now`), and freshly generated ids are likewise supplied as
arguments, so every operation is a pure function of its inputs.
-/

namespace Fintech

/-- JavaScript truthiness of an optional string value: `undefined`/`null` and
the empty string are falsy, every other string is truthy. -/
def truthyStr : Option String → Bool
  | none => false
  | some s => s != ""

/-- JavaScript truthiness of an optional number: `undefined`/`null` and `0`
are falsy. -/
def truthyInt : Option Int → Bool
  | none => false
  | some n => n != 0

/-- A row of the `Loan` table (fields selected by the service layer). -/
structure Loan where
  id : String
  type : String
  amount : Int
  status : String
  applicantId : String
  merchantId : Option String
  bankerId : Option String
  createdAt : Nat
  updatedAt : Nat
deriving DecidableEq, Repr

/-- A row of the `AuditLog` table.  `loanService.createAuditLog` and
`kycService.createKYCAuditLog` persist exactly `loanId`, `action` and
`actorId` (the `details` argument is commented out in the Prisma `data`). -/
structure AuditLog where
  loanId : Option String
  action : String
  actorId : Option String
deriving DecidableEq, Repr

/-- A row of the `KYCDocument` table. -/
structure KYCDocument where
  id : String
  type : String
  url : Option String
  status : String
  userId : String
  verifiedBy : Option String
  createdAt : Nat
deriving DecidableEq, Repr

/-- A thrown JavaScript error carrying an HTTP status code. -/
structure ApiError where
  message : String
  status : Nat
deriving DecidableEq, Repr

/-- `prisma.loan.findUnique({ where: { id } })` over the loan table. -/
def loanFindUnique (loans : List Loan) (loanId : String) : Option Loan :=
  loans.find? (fun l => l.id == loanId)

/-- `LoanService.getLoanById(loanId, userId)` (src/unnamed/part_001, lines
57-112): 404 when no loan has the id, then the access check
`loan.applicantId === userId || loan.merchantId === userId ||
(userId && loan.bankerId === userId)`, 403 when it fails. -/
def getLoanById (loans : List Loan) (loanId userId : String) :
    Except ApiError Loan :=
  match loanFindUnique loans loanId with
  | none => .error ⟨"Loan not found", 404⟩
  | some loan =>
    let canAccess := loan.applicantId == userId || loan.merchantId == some userId ||
      (userId != "" && loan.bankerId == some userId)
    if canAccess then .ok loan else .error ⟨"Unauthorized access to loan", 403⟩

/-- The access rule asserted by the spec for `getById`: requester is the
applicant, the recorded merchant, or any principal holding the BANKER role
(role-based, independent of the recorded `bankerId`).  Stated from the spec's
words, to be compared with the behaviour of `getLoanById`. -/
def specGetByIdCanAccess (loan : Loan) (requesterId requesterRole : String) : Prop :=
  loan.applicantId = requesterId ∨ loan.merchantId = some requesterId ∨
    requesterRole = "BANKER"

/-- Concrete stored loan used to refute the C1 claim: `bankerId` is not yet
recorded (a `PENDING` loan), so no requester can pass the banker branch of the
code's access check. -/
def c1Loan : Loan :=
  ⟨"L1", "PERSONAL", 50000, "PENDING", "alice", none, none, 0, 0⟩

/-- The Boolean access check of `getLoanById`, as a proposition. -/
lemma canAccess_iff (loan : Loan) (userId : String) :
    (loan.applicantId == userId || loan.merchantId == some userId ||
      (userId != "" && loan.bankerId == some userId)) = true ↔
    (loan.applicantId = userId ∨ loan.merchantId = some userId ∨
      (userId ≠ "" ∧ loan.bankerId = some userId)) := by
  simp [or_assoc]

/-- C1 counterexample: a requester holding the BANKER role who is neither the
applicant nor the recorded merchant satisfies the spec's access rule, but
`getLoanById` returns Forbidden (403), because the code compares the requester
id against the recorded `bankerId` (here `null`) and never sees a role. -/
theorem getLoanById_banker_role_not_honored :
    specGetByIdCanAccess c1Loan "banker9" "BANKER" ∧
      getLoanById [c1Loan] "L1" "banker9" =
        .error ⟨"Unauthorized access to loan", 403⟩ :=
  ⟨Or.inr (Or.inr rfl), rfl⟩

/-- C1 amended: `getLoanById` returns the loan exactly when the requester is
the applicant, the recorded merchant, or the recorded `bankerId` (a non-empty
requester id equal to `bankerId`); it fails 404 exactly when no loan has the
id, and 403 exactly when the loan exists and none of the three identity checks
holds.  (There is no role-based BANKER override.) -/
theorem getLoanById_access_characterization (loans : List Loan)
    (loanId userId : String) :
    (getLoanById loans loanId userId = .error ⟨"Loan not found", 404⟩ ↔
      loanFindUnique loans loanId = none) ∧
    (∀ loan, getLoanById loans loanId userId = .ok loan ↔
      loanFindUnique loans loanId = some loan ∧
        (loan.applicantId = userId ∨ loan.merchantId = some userId ∨
          (userId ≠ "" ∧ loan.bankerId = some userId))) ∧
    (getLoanById loans loanId userId = .error ⟨"Unauthorized access to loan", 403⟩ ↔
      ∃ loan, loanFindUnique loans loanId = some loan ∧
        ¬(loan.applicantId = userId ∨ loan.merchantId = some userId ∨
          (userId ≠ "" ∧ loan.bankerId = some userId))) := by
  unfold getLoanById
  cases h : loanFindUnique loans loanId with
  | none =>
    exact ⟨by simp, fun loan => by simp, by simp⟩
  | some loan =>
    by_cases hacc : loan.applicantId = userId ∨ loan.merchantId = some userId ∨
        (userId ≠ "" ∧ loan.bankerId = some userId)
    · have hb := (canAccess_iff loan userId).mpr hacc
      refine ⟨by simp [hb], fun l => ?_, ?_⟩
      · simp only [hb, if_true, Except.ok.injEq, Option.some.injEq]
        constructor
        · intro hl
          subst hl
          exact ⟨rfl, hacc⟩
        · intro hl
          exact hl.1
      · simp only [hb, if_true]
        constructor
        · intro h'
          exact Except.noConfusion h'
        · rintro ⟨l, hl, hneg⟩
          cases hl
          exact absurd hacc hneg
    · have hb : (loan.applicantId == userId || loan.merchantId == some userId ||
          (userId != "" && loan.bankerId == some userId)) = false := by
        cases hb' : (loan.applicantId == userId || loan.merchantId == some userId ||
          (userId != "" && loan.bankerId == some userId)) with
        | true => exact absurd ((canAccess_iff loan userId).mp hb') hacc
        | false => rfl
      refine ⟨by simp [hb], fun l => ?_, ?_⟩
      · simp only [hb, if_false]
        constructor
        · intro h'
          exact Except.noConfusion h'
        · rintro ⟨hl, hp⟩
          cases hl
          exact absurd hp hacc
      · simp only [hb, if_false]
        constructor
        · intro _
          exact ⟨loan, rfl, hacc⟩
        · intro _
          rfl

/-- Witness for the C1 amended theorem: the applicant herself gets the loan. -/
theorem getLoanById_access_characterization_witness :
    getLoanById [c1Loan] "L1" "alice" = .ok c1Loan :=
  ((getLoanById_access_characterization [c1Loan] "L1" "alice").2.1 c1Loan).mpr
    ⟨by decide, Or.inl (by decide)⟩

/-- `LoanService.createAuditLog(loanId, action, actorId, details)` (part_001,
lines 237-263).  The underlying `prisma.auditLog.create` may fail; the failure
is modelled by the `auditOk` flag.  The `try`/`catch` wrapper swallows the
failure ("Don't throw - audit logs shouldn't break main flow"), leaving the
audit table unchanged; the function never raises. -/
def createAuditLog (auditDb : List AuditLog) (auditOk : Bool)
    (loanId : Option String) (action : String) (actorId : Option String) :
    List AuditLog :=
  match (if auditOk then Except.ok (auditDb ++ [⟨loanId, action, actorId⟩])
      else Except.error "audit insert failed" : Except String (List AuditLog)) with
  | .ok db => db
  | .error _ => auditDb

/-- `KYCService.createKYCAuditLog(kycDocId, action, actorId, details)`
(kycService.js, lines 365-390): persists `loanId: null` and the action tag
`` `KYC_${action}` `` (note the prefix is added here); failures are swallowed
exactly like `createAuditLog`. -/
def createKYCAuditLog (auditDb : List AuditLog) (auditOk : Bool)
    (action : String) (actorId : Option String) : List AuditLog :=
  match (if auditOk then Except.ok (auditDb ++ [⟨none, "KYC_" ++ action, actorId⟩])
      else Except.error "audit insert failed" : Except String (List AuditLog)) with
  | .ok db => db
  | .error _ => auditDb

/-- Models `loanData.merchantId || null` in `LoanService.createLoan`. -/
def jsOrNull (o : Option String) : Option String :=
  if truthyStr o then o else none

/-- `LoanService.createLoan(loanData, userId)` (part_001, lines 10-52): inserts
a `PENDING` loan with `applicantId = userId`, `merchantId = loanData.merchantId
|| null`, `bankerId = null`, then appends a `LOAN_CREATED` audit entry.
The generated row id and the clock are supplied as `newId` / `now`. -/
def createLoan (loans : List Loan) (auditDb : List AuditLog) (auditOk : Bool)
    (loanType : String) (amount : Int) (merchantId : Option String)
    (userId newId : String) (now : Nat) :
    Loan × List Loan × List AuditLog :=
  let loan : Loan :=
    ⟨newId, loanType, amount, "PENDING", userId, jsOrNull merchantId, none, now, now⟩
  (loan, loans ++ [loan],
    createAuditLog auditDb auditOk (some newId) "LOAN_CREATED" (some userId))

/-- `LoanController.apply` (loanController.js, lines 12-81): rejects roles
outside {CUSTOMER, MERCHANT} with 403; computes `finalMerchantId` — the acting
merchant's own `userId` when a MERCHANT supplies a (truthy) merchant reference
in the body, `null` otherwise — and calls `createLoan` with it.  The validated
body fields `type` / `amount` / `merchantId` are passed as arguments. -/
def loanApply (loans : List Loan) (auditDb : List AuditLog) (auditOk : Bool)
    (role userId : String) (bodyType : String) (bodyAmount : Int)
    (bodyMerchantId : Option String) (newId : String) (now : Nat) :
    Except ApiError (Loan × List Loan × List AuditLog) :=
  if !(["CUSTOMER", "MERCHANT"].contains role) then
    .error ⟨"Only customers and merchants can apply for loans", 403⟩
  else
    let finalMerchantId :=
      if role == "MERCHANT" && truthyStr bodyMerchantId then some userId else none
    .ok (createLoan loans auditDb auditOk bodyType bodyAmount finalMerchantId
      userId newId now)

/-- C3: the created loan's `merchantId` is the acting merchant's own id when a
MERCHANT applies with a merchant reference present, `null` when a MERCHANT
applies without one, and `null` for every CUSTOMER application regardless of
the request body. -/
theorem loanApply_merchantId (loans : List Loan) (auditDb : List AuditLog)
    (auditOk : Bool) (role userId bodyType : String) (bodyAmount : Int)
    (bodyMerchantId : Option String) (newId : String) (now : Nat)
    (loan : Loan) (loans' : List Loan) (auditDb' : List AuditLog)
    (hu : userId ≠ "")
    (h : loanApply loans auditDb auditOk role userId bodyType bodyAmount
      bodyMerchantId newId now = .ok (loan, loans', auditDb')) :
    (role = "MERCHANT" → truthyStr bodyMerchantId = true →
      loan.merchantId = some userId) ∧
    (role = "MERCHANT" → truthyStr bodyMerchantId = false →
      loan.merchantId = none) ∧
    (role = "CUSTOMER" → loan.merchantId = none) := by
  unfold loanApply at h
  split at h
  · exact Except.noConfusion h
  · rw [Except.ok.injEq] at h
    have hl : loan = ⟨newId, bodyType, bodyAmount, "PENDING", userId,
        jsOrNull (if role == "MERCHANT" && truthyStr bodyMerchantId
          then some userId else none), none, now, now⟩ := by
      simpa [createLoan] using (congrArg Prod.fst h).symm
    subst hl
    refine ⟨?_, ?_, ?_⟩
    · intro hrole htr
      subst hrole
      simp only [htr]
      simp [jsOrNull, truthyStr, hu]
    · intro hrole htr
      subst hrole
      simp only [htr]
      simp [jsOrNull]
    · intro hrole
      subst hrole
      simp [jsOrNull, truthyStr]

/-- Witness for C3: a MERCHANT (`"m1"`, a non-empty id) applying with a
merchant reference `"c9"` in the body yields a loan whose `merchantId` is the
merchant's own id `"m1"`, not the referenced `"c9"`. -/
theorem loanApply_merchantId_witness :
    ("m1" : String) ≠ "" ∧
      (Loan.mk "L9" "PERSONAL" 50000 "PENDING" "m1" (some "m1") none 7 7).merchantId
        = some "m1" :=
  ⟨by decide,
    (loanApply_merchantId [] [] true "MERCHANT" "m1" "PERSONAL" 50000
      (some "c9") "L9" 7
      (Loan.mk "L9" "PERSONAL" 50000 "PENDING" "m1" (some "m1") none 7 7)
      [Loan.mk "L9" "PERSONAL" 50000 "PENDING" "m1" (some "m1") none 7 7]
      [AuditLog.mk (some "L9") "LOAN_CREATED" (some "m1")]
      (by decide) rfl).1 rfl rfl⟩

/-- `prisma.loan.update({ where: { id }, data })` over the loan table: fails
when no row has the id (Prisma raises P2025; surfaced as a plain 500 error by
the error handler), otherwise applies `f` to the matching row and returns the
updated row together with the updated table. -/
def loanUpdate (loans : List Loan) (loanId : String) (f : Loan → Loan) :
    Except ApiError (Loan × List Loan) :=
  match loanFindUnique loans loanId with
  | none => .error ⟨"Record to update not found", 500⟩
  | some l => .ok (f l, loans.map (fun x => if x.id == loanId then f x else x))

/-- `LoanService.updateLoanStatus(loanId, status, userId, notes)` (part_001,
lines 182-232): rejects a decision outside {APPROVED, REJECTED} with a 400
"Invalid status transition" error, otherwise updates the row — `status`,
`bankerId = userId`, `updatedAt = now` — with no check of the loan's current
status, then appends a LOAN_APPROVED / LOAN_REJECTED audit entry
(best-effort).  `notes` is only logged, never persisted. -/
def updateLoanStatus (loans : List Loan) (auditDb : List AuditLog)
    (auditOk : Bool) (loanId status userId : String) (notes : String)
    (now : Nat) : Except ApiError (Loan × List Loan × List AuditLog) :=
  if !(["APPROVED", "REJECTED"].contains status) then
    .error ⟨"Invalid status transition", 400⟩
  else
    match loanUpdate loans loanId (fun l =>
        { l with status := status, bankerId := some userId, updatedAt := now }) with
    | .error e => .error e
    | .ok (loan, loans') =>
      let action := if status == "APPROVED" then "LOAN_APPROVED" else "LOAN_REJECTED"
      .ok (loan, loans', createAuditLog auditDb auditOk (some loanId) action (some userId))

/-- C7: `updateLoanStatus` fails with the 400 "Invalid status transition"
error exactly when the decision is outside {APPROVED, REJECTED}; for a valid
decision on any stored loan — regardless of the loan's current status, so a
second decision on an already-decided loan succeeds and overwrites — it sets
`status` to the decision, `bankerId` to the deciding banker and `updatedAt` to
the clock, and (when the audit store is up) appends a LOAN_APPROVED or
LOAN_REJECTED audit entry. -/
theorem updateLoanStatus_characterization (loans : List Loan)
    (auditDb : List AuditLog) (auditOk : Bool)
    (loanId status userId notes : String) (now : Nat) :
    (updateLoanStatus loans auditDb auditOk loanId status userId notes now =
        .error ⟨"Invalid status transition", 400⟩ ↔
      ¬(status = "APPROVED" ∨ status = "REJECTED")) ∧
    (∀ l, loanFindUnique loans loanId = some l →
      (status = "APPROVED" ∨ status = "REJECTED") →
      updateLoanStatus loans auditDb auditOk loanId status userId notes now =
        .ok ({ l with status := status, bankerId := some userId, updatedAt := now },
          loans.map (fun x => if x.id == loanId
            then { x with status := status, bankerId := some userId, updatedAt := now }
            else x),
          if auditOk then
            auditDb ++ [⟨some loanId,
              if status == "APPROVED" then "LOAN_APPROVED" else "LOAN_REJECTED",
              some userId⟩]
          else auditDb)) := by
  have hcontains : (["APPROVED", "REJECTED"].contains status) = true ↔
      (status = "APPROVED" ∨ status = "REJECTED") := by
    simp [List.contains_cons]
  by_cases hv : status = "APPROVED" ∨ status = "REJECTED"
  · have hc : (["APPROVED", "REJECTED"].contains status) = true := hcontains.mpr hv
    constructor
    · unfold updateLoanStatus
      simp only [hc, Bool.not_true, Bool.false_eq_true, if_false]
      cases hfind : loanFindUnique loans loanId with
      | none =>
        simp only [loanUpdate, hfind]
        constructor
        · intro h'
          exact absurd (congrArg (fun e => match e with
            | Except.error a => a.status
            | _ => 0) h') (by decide)
        · intro h'
          exact absurd hv h'
      | some l =>
        simp only [loanUpdate, hfind]
        constructor
        · intro h'
          exact Except.noConfusion h'
        · intro h'
          exact absurd hv h'
    · intro l hfind _
      unfold updateLoanStatus
      simp only [hc, Bool.not_true, Bool.false_eq_true, if_false]
      simp only [loanUpdate, hfind]
      unfold createAuditLog
      cases auditOk <;> rfl
  · have hc : (["APPROVED", "REJECTED"].contains status) = false := by
      cases hc' : (["APPROVED", "REJECTED"].contains status) with
      | true => exact absurd (hcontains.mp hc') hv
      | false => rfl
    constructor
    · unfold updateLoanStatus
      simp only [hc, Bool.not_false, if_true]
      constructor
      · intro _
        exact hv
      · intro _
        trivial
    · intro l _ hv'
      exact absurd hv' hv

/-- Witness for C7: re-deciding an already-APPROVED loan with REJECTED
succeeds and overwrites the status and `bankerId` — the permissive overwrite
behaviour the claim describes. -/
theorem updateLoanStatus_characterization_witness :
    updateLoanStatus
        [⟨"L7", "BUSINESS", 200000, "APPROVED", "alice", none, some "b1", 1, 2⟩]
        [] true "L7" "REJECTED" "b2" "second decision" 9 =
      .ok (⟨"L7", "BUSINESS", 200000, "REJECTED", "alice", none, some "b2", 1, 9⟩,
        [⟨"L7", "BUSINESS", 200000, "REJECTED", "alice", none, some "b2", 1, 9⟩],
        [⟨some "L7", "LOAN_REJECTED", some "b2"⟩]) :=
  (updateLoanStatus_characterization
      [⟨"L7", "BUSINESS", 200000, "APPROVED", "alice", none, some "b1", 1, 2⟩]
      [] true "L7" "REJECTED" "b2" "second decision" 9).2
    ⟨"L7", "BUSINESS", 200000, "APPROVED", "alice", none, some "b1", 1, 2⟩
    rfl (Or.inr rfl)


/-- The query filters accepted by `LoanService.getUserLoans`. -/
structure LoanFilters where
  status : Option String
  type : Option String
  minAmount : Option Int
  limit : Option Nat
deriving DecidableEq, Repr

/-- The Prisma `where` object assembled by `getUserLoans`: each field is a
condition that is present or absent.  `applicantOrMerchant` stands for the
`OR: [{applicantId}, {merchantId}]` clause of the MERCHANT branch. -/
structure LoanWhere where
  applicantId : Option String
  applicantOrMerchant : Option String
  status : Option String
  type : Option String
  amountGte : Option Int
deriving DecidableEq, Repr

/-- The `whereClause` construction of `LoanService.getUserLoans` (part_001,
lines 119-149): a role `switch` builds the base scope (CUSTOMER: own
applications; MERCHANT: applicant OR merchant; BANKER: `status: 'PENDING'`;
default: own applications), then each truthy filter is assigned onto the
object — note `whereClause.status = filters.status` overwrites the BANKER
base scope, it is not conjoined with it. -/
def buildLoanWhere (userId role : String) (filters : LoanFilters) : LoanWhere :=
  let base : LoanWhere :=
    if role == "CUSTOMER" then ⟨some userId, none, none, none, none⟩
    else if role == "MERCHANT" then ⟨none, some userId, none, none, none⟩
    else if role == "BANKER" then ⟨none, none, some "PENDING", none, none⟩
    else ⟨some userId, none, none, none, none⟩
  let w1 := if truthyStr filters.status then { base with status := filters.status } else base
  let w2 := if truthyStr filters.type then { w1 with type := filters.type } else w1
  if truthyInt filters.minAmount then { w2 with amountGte := filters.minAmount } else w2

/-- Whether a loan row matches a `where` object (Prisma conjunction of the
present conditions; `amountGte` is `amount: { gte: … }`). -/
def loanMatchesWhere (w : LoanWhere) (l : Loan) : Bool :=
  (match w.applicantId with | some a => l.applicantId == a | none => true) &&
  (match w.applicantOrMerchant with
    | some u => l.applicantId == u || l.merchantId == some u
    | none => true) &&
  (match w.status with | some s => l.status == s | none => true) &&
  (match w.type with | some t => l.type == t | none => true) &&
  (match w.amountGte with | some m => decide (m ≤ l.amount) | none => true)

/-- `orderBy: { createdAt: 'desc' }`: newest first. -/
def loanNewestFirst : Loan → Loan → Prop := fun a b => b.createdAt ≤ a.createdAt

instance : DecidableRel loanNewestFirst := fun a b => Nat.decLe b.createdAt a.createdAt

instance : IsTotal Loan loanNewestFirst :=
  ⟨fun a b => Nat.le_total b.createdAt a.createdAt⟩

instance : IsTrans Loan loanNewestFirst :=
  ⟨fun _ _ _ hab hbc => Nat.le_trans hbc hab⟩

/-- `take: filters.limit || 20` — a missing or zero (falsy) limit becomes 20. -/
def effectiveLimit : Option Nat → Nat
  | none => 20
  | some n => if n == 0 then 20 else n

/-- `LoanService.getUserLoans(userId, role, filters)` (part_001, lines
117-177): filter by the assembled `where` clause, order newest-first, cap at
the effective limit.  (The deterministic `insertionSort` stands in for the
store's `orderBy`.) -/
def getUserLoans (loans : List Loan) (userId role : String)
    (filters : LoanFilters) : List Loan :=
  let w := buildLoanWhere userId role filters
  (List.insertionSort loanNewestFirst (loans.filter (loanMatchesWhere w))).take
    (effectiveLimit filters.limit)

/-- Concrete stored loan used to refute the C2 claim: an APPROVED loan. -/
def c2Loan : Loan := ⟨"L2", "PERSONAL", 5000, "APPROVED", "alice", none, some "b1", 5, 6⟩

/-- C2 counterexample: a BANKER list with a `status=APPROVED` filter returns
an APPROVED loan.  Under the claim the filter would be ANDed with the PENDING
role scope (yielding no results); in the code the assignment
`whereClause.status = filters.status` replaces the PENDING scope. -/
theorem getUserLoans_banker_status_filter_replaces :
    getUserLoans [c2Loan] "b1" "BANKER" ⟨some "APPROVED", none, none, some 10⟩ =
      [c2Loan] ∧ c2Loan.status ≠ "PENDING" :=
  ⟨rfl, by decide⟩

/-- The BANKER-list scope that actually holds (amended claim): with no status
filter the results are PENDING loans; a supplied (truthy) status filter
replaces the PENDING scope; type and minAmount filters are conjoined. -/
def bankerScope (filters : LoanFilters) (l : Loan) : Prop :=
  (if truthyStr filters.status then filters.status = some l.status
    else l.status = "PENDING") ∧
  (∀ t, filters.type = some t → t ≠ "" → l.type = t) ∧
  (∀ m, filters.minAmount = some m → m ≠ 0 → m ≤ l.amount)

/-- A loan matches a `where` object iff it satisfies each present condition. -/
lemma loanMatchesWhere_iff (w : LoanWhere) (l : Loan) :
    loanMatchesWhere w l = true ↔
      (∀ a, w.applicantId = some a → l.applicantId = a) ∧
      (∀ u, w.applicantOrMerchant = some u →
        (l.applicantId = u ∨ l.merchantId = some u)) ∧
      (∀ s, w.status = some s → l.status = s) ∧
      (∀ t, w.type = some t → l.type = t) ∧
      (∀ m, w.amountGte = some m → m ≤ l.amount) := by
  obtain ⟨wa, wo, ws, wt, wm⟩ := w
  unfold loanMatchesWhere
  rcases wa with _ | a <;> rcases wo with _ | u <;> rcases ws with _ | s <;>
    rcases wt with _ | t <;> rcases wm with _ | m <;>
    simp [Bool.and_eq_true, or_iff_not_imp_left, and_assoc]

/-- The `where` object assembled for a BANKER, in closed form. -/
lemma buildLoanWhere_banker (userId : String) (filters : LoanFilters) :
    buildLoanWhere userId "BANKER" filters =
      ⟨none, none,
        if truthyStr filters.status then filters.status else some "PENDING",
        if truthyStr filters.type then filters.type else none,
        if truthyInt filters.minAmount then filters.minAmount else none⟩ := by
  cases hs : truthyStr filters.status <;> cases ht : truthyStr filters.type <;>
    cases hm : truthyInt filters.minAmount <;>
    simp [buildLoanWhere, hs, ht, hm]

/-- C2 amended: every loan returned by a BANKER-scoped `getUserLoans` call is
a stored loan satisfying `bankerScope` (PENDING unless a status filter
replaced that scope, plus the conjoined type / minAmount filters); the result
is ordered newest-first and its length is capped by the effective limit. -/
theorem getUserLoans_banker_characterization (loans : List Loan)
    (userId : String) (filters : LoanFilters) :
    (getUserLoans loans userId "BANKER" filters).length ≤
      effectiveLimit filters.limit ∧
    List.Sorted loanNewestFirst (getUserLoans loans userId "BANKER" filters) ∧
    (∀ l ∈ getUserLoans loans userId "BANKER" filters,
      l ∈ loans ∧ bankerScope filters l) := by
  refine ⟨?_, ?_, ?_⟩
  · unfold getUserLoans
    rw [List.length_take]
    exact min_le_left _ _
  · unfold getUserLoans
    exact List.Pairwise.sublist (List.take_sublist _ _)
      (List.sorted_insertionSort loanNewestFirst _)
  · intro l hl
    unfold getUserLoans at hl
    have h1 : l ∈ List.insertionSort loanNewestFirst
        (loans.filter (loanMatchesWhere (buildLoanWhere userId "BANKER" filters))) :=
      (List.take_sublist _ _).mem hl
    have h2 := (List.mem_insertionSort loanNewestFirst).mp h1
    have h3 := List.mem_filter.mp h2
    refine ⟨h3.1, ?_⟩
    have hw := (loanMatchesWhere_iff _ l).mp h3.2
    rw [buildLoanWhere_banker] at hw
    obtain ⟨_, _, hstat, htyp, hamt⟩ := hw
    refine ⟨?_, ?_, ?_⟩
    · cases hfs : truthyStr filters.status with
      | false =>
        simp only [hfs, if_false] at hstat ⊢
        exact hstat "PENDING" rfl
      | true =>
        simp only [hfs, if_true] at hstat ⊢
        cases hfsv : filters.status with
        | none => rw [hfsv] at hfs; exact Bool.noConfusion hfs
        | some s =>
          rw [hfsv] at hstat
          rw [hstat s rfl]
    · intro t hft hte
      have htr : truthyStr filters.type = true := by
        rw [hft]; simp [truthyStr, hte]
      simp only [htr, if_true] at htyp
      exact htyp t hft
    · intro m hfm hme
      have htr : truthyInt filters.minAmount = true := by
        rw [hfm]; simp [truthyInt, hme]
      simp only [htr, if_true] at hamt
      exact hamt m hfm

/-- Witness for C2 amended: with no filters, a PENDING loan is listed for the
banker and the scope facts hold for it. -/
theorem getUserLoans_banker_characterization_witness :
    (⟨"L3", "VEHICLE", 9000, "PENDING", "bob", none, none, 3, 3⟩ : Loan) ∈
        getUserLoans [⟨"L3", "VEHICLE", 9000, "PENDING", "bob", none, none, 3, 3⟩]
          "b1" "BANKER" ⟨none, none, none, none⟩ ∧
      (⟨"L3", "VEHICLE", 9000, "PENDING", "bob", none, none, 3, 3⟩ : Loan).status
        = "PENDING" :=
  ⟨by decide,
    by
      have h := ((getUserLoans_banker_characterization
          [⟨"L3", "VEHICLE", 9000, "PENDING", "bob", none, none, 3, 3⟩]
          "b1" ⟨none, none, none, none⟩).2.2
          ⟨"L3", "VEHICLE", 9000, "PENDING", "bob", none, none, 3, 3⟩
          (by decide)).2.1
      simpa using h⟩

/-- `prisma.kYCDocument.findUnique({ where: { id } })`. -/
def kycFindUnique (docs : List KYCDocument) (kycDocId : String) :
    Option KYCDocument :=
  docs.find? (fun d => d.id == kycDocId)

/-- `prisma.kYCDocument.update({ where: { id }, data })`: fails when no row
has the id, otherwise applies `f` to the matching row. -/
def kycUpdate (docs : List KYCDocument) (kycDocId : String)
    (f : KYCDocument → KYCDocument) :
    Except ApiError (KYCDocument × List KYCDocument) :=
  match kycFindUnique docs kycDocId with
  | none => .error ⟨"Record to update not found", 500⟩
  | some d => .ok (f d, docs.map (fun x => if x.id == kycDocId then f x else x))

/-- The resolved Cloudinary access URL
`https://res.cloudinary.com/${CLOUDINARY_CLOUD_NAME}/image/upload/${publicId}`
(the cloud name environment variable is modelled as the fixed string
`CLOUD`). -/
def cloudinaryUrl (publicId : String) : String :=
  "https://res.cloudinary.com/CLOUD/image/upload/" ++ publicId

/-- Default of `parseInt(process.env.KYC_MAX_FILE_SIZE || '5242880')`. -/
def KYC_MAX_FILE_SIZE : Nat := 5242880

/-- Default of `(process.env.KYC_ALLOWED_TYPES || '…').split(',')`. -/
def KYC_ALLOWED_TYPES : List String :=
  ["image/jpeg", "image/png", "application/pdf"]

/-- `KYCService.createKYCDocument(userId, type, status, publicId)`
(kycService.js, lines 75-110): inserts a row; `url` is the resolved
Cloudinary URL when `publicId` is truthy, else `null`; `verifiedBy` starts
`null`. -/
def createKYCDocument (docs : List KYCDocument) (userId docType status : String)
    (publicId : Option String) (newId : String) (now : Nat) :
    KYCDocument × List KYCDocument :=
  let doc : KYCDocument :=
    ⟨newId, docType,
      if truthyStr publicId then publicId.map cloudinaryUrl else none,
      status, userId, none, now⟩
  (doc, docs ++ [doc])

/-- `KYCService.generateUploadUrl(userId, docType)` (kycService.js, lines
19-70): validates `docType` against the fixed enum (400 otherwise) and
registers a fresh document row in `UPLOADING` status.  The signature /
upload-target payload is not modelled; the fresh row id, storage key and
clock are supplied as arguments. -/
def generateUploadUrl (docs : List KYCDocument) (userId docType : String)
    (newId publicId : String) (now : Nat) :
    Except ApiError (KYCDocument × List KYCDocument) :=
  if !(["ID_PROOF", "ADDRESS_PROOF", "PAN_CARD", "BANK_STATEMENT"].contains docType) then
    .error ⟨"Invalid document type", 400⟩
  else
    .ok (createKYCDocument docs userId docType "UPLOADING" (some publicId) newId now)

/-- `KYCService.completeUpload(kycDocId, publicId, fileSize, contentType)`
(kycService.js, lines 115-167): 413 when `fileSize` exceeds the configured
ceiling, then 415 when `contentType` is not in the configured allow-list,
otherwise updates the row — resolved URL, `status: 'PENDING'`,
`verifiedBy: null` — with no check of the row's current status, and appends a
best-effort `DOCUMENT_UPLOADED` audit entry (stored with the `KYC_` prefix
and `actorId: null`).  The configuration (`maxFileSize`, `allowedTypes`) is
passed explicitly; its defaults are `KYC_MAX_FILE_SIZE` and
`KYC_ALLOWED_TYPES`. -/
def completeUpload (docs : List KYCDocument) (auditDb : List AuditLog)
    (auditOk : Bool) (kycDocId publicId : String) (fileSize : Nat)
    (contentType : String) (maxFileSize : Nat) (allowedTypes : List String) :
    Except ApiError (KYCDocument × List KYCDocument × List AuditLog) :=
  if fileSize > maxFileSize then
    .error ⟨"File size exceeds 5MB limit", 413⟩
  else if !(allowedTypes.contains contentType) then
    .error ⟨"Invalid file type. Only JPG, PNG, PDF allowed", 415⟩
  else
    match kycUpdate docs kycDocId (fun d =>
        { d with
            url := some (cloudinaryUrl publicId)
            status := "PENDING"
            verifiedBy := none }) with
    | .error e => .error e
    | .ok (doc, docs') =>
      .ok (doc, docs', createKYCAuditLog auditDb auditOk "DOCUMENT_UPLOADED" none)

/-- C9: `completeUpload` fails with the 413 PayloadTooLarge error exactly when
`fileSize` exceeds the configured ceiling, fails with the 415
UnsupportedMediaType error exactly when the size is within the ceiling and
`contentType` is outside the configured allow-list, and succeeds (updating the
row and appending the audit entry) whenever the size and content type pass and
the row exists. -/
theorem completeUpload_size_type_errors (docs : List KYCDocument)
    (auditDb : List AuditLog) (auditOk : Bool) (kycDocId publicId : String)
    (fileSize : Nat) (contentType : String) (maxFileSize : Nat)
    (allowedTypes : List String) :
    (completeUpload docs auditDb auditOk kycDocId publicId fileSize contentType
        maxFileSize allowedTypes = .error ⟨"File size exceeds 5MB limit", 413⟩ ↔
      fileSize > maxFileSize) ∧
    (completeUpload docs auditDb auditOk kycDocId publicId fileSize contentType
        maxFileSize allowedTypes =
          .error ⟨"Invalid file type. Only JPG, PNG, PDF allowed", 415⟩ ↔
      fileSize ≤ maxFileSize ∧ allowedTypes.contains contentType = false) ∧
    (∀ d, kycFindUnique docs kycDocId = some d → fileSize ≤ maxFileSize →
      allowedTypes.contains contentType = true →
      completeUpload docs auditDb auditOk kycDocId publicId fileSize contentType
          maxFileSize allowedTypes =
        .ok ({ d with
              url := some (cloudinaryUrl publicId)
              status := "PENDING"
              verifiedBy := none },
          docs.map (fun x => if x.id == kycDocId
            then { x with
                url := some (cloudinaryUrl publicId)
                status := "PENDING"
                verifiedBy := none }
            else x),
          if auditOk then auditDb ++ [⟨none, "KYC_DOCUMENT_UPLOADED", none⟩]
          else auditDb)) := by
  by_cases hsize : fileSize > maxFileSize
  · have hle : ¬fileSize ≤ maxFileSize := not_le.mpr hsize
    unfold completeUpload
    rw [if_pos hsize]
    refine ⟨⟨fun _ => hsize, fun _ => rfl⟩, ?_, ?_⟩
    · constructor
      · intro h'
        exact absurd (congrArg (fun e => match e with
          | Except.error a => a.status
          | _ => 0) h') (by decide)
      · intro h'
        exact absurd h'.1 hle
    · intro d _ hle' _
      exact absurd hle' hle
  · have hle : fileSize ≤ maxFileSize := not_lt.mp hsize
    unfold completeUpload
    rw [if_neg hsize]
    by_cases hct : allowedTypes.contains contentType = true
    · rw [hct]
      simp only [Bool.not_true, Bool.false_eq_true, if_false]
      cases hfind : kycFindUnique docs kycDocId with
      | none =>
        simp only [kycUpdate, hfind]
        refine ⟨?_, ?_, ?_⟩
        · constructor
          · intro h'
            exact absurd (congrArg (fun e => match e with
              | Except.error a => a.status
              | _ => 0) h') (by decide)
          · intro h'
            exact absurd h' hsize
        · constructor
          · intro h'
            exact absurd (congrArg (fun e => match e with
              | Except.error a => a.status
              | _ => 0) h') (by decide)
          · intro h'
            exact Bool.noConfusion h'.2
        · intro d hd
          exact Option.noConfusion hd
      | some d0 =>
        simp only [kycUpdate, hfind]
        refine ⟨?_, ?_, ?_⟩
        · exact ⟨fun h' => Except.noConfusion h', fun h' => absurd h' hsize⟩
        · constructor
          · intro h'
            exact Except.noConfusion h'
          · intro h'
            exact Bool.noConfusion h'.2
        · intro d hd _ _
          injection hd with hd'
          subst hd'
          unfold createKYCAuditLog
          cases auditOk <;> rfl
    · have hct' : allowedTypes.contains contentType = false :=
        Bool.eq_false_iff.mpr hct
      rw [hct']
      simp only [Bool.not_false, if_true]
      refine ⟨?_, ?_, ?_⟩
      · constructor
        · intro h'
          exact absurd (congrArg (fun e => match e with
            | Except.error a => a.status
            | _ => 0) h') (by decide)
        · intro h'
          exact absurd h' hsize
      · constructor
        · intro _
          exact ⟨hle, trivial⟩
        · intro _
          trivial
      · intro d _ _ hcontra
        exact Bool.noConfusion hcontra

/-- Witness for C9 at the default configuration: fileSize 5242881 fails with
PayloadTooLarge, and fileSize 5242880 with an allowed content type on an
existing row succeeds. -/
theorem completeUpload_size_type_errors_witness :
    completeUpload [⟨"D9", "ID_PROOF", none, "UPLOADING", "carol", none, 4⟩]
        [] true "D9" "p9" 5242881 "image/png" KYC_MAX_FILE_SIZE
        KYC_ALLOWED_TYPES = .error ⟨"File size exceeds 5MB limit", 413⟩ ∧
    completeUpload [⟨"D9", "ID_PROOF", none, "UPLOADING", "carol", none, 4⟩]
        [] true "D9" "p9" 5242880 "image/png" KYC_MAX_FILE_SIZE
        KYC_ALLOWED_TYPES =
      .ok (⟨"D9", "ID_PROOF", some (cloudinaryUrl "p9"), "PENDING", "carol",
          none, 4⟩,
        [⟨"D9", "ID_PROOF", some (cloudinaryUrl "p9"), "PENDING", "carol",
          none, 4⟩],
        [⟨none, "KYC_DOCUMENT_UPLOADED", none⟩]) :=
  ⟨(completeUpload_size_type_errors
      [⟨"D9", "ID_PROOF", none, "UPLOADING", "carol", none, 4⟩]
      [] true "D9" "p9" 5242881 "image/png" KYC_MAX_FILE_SIZE
      KYC_ALLOWED_TYPES).1.mpr (by decide),
    (completeUpload_size_type_errors
      [⟨"D9", "ID_PROOF", none, "UPLOADING", "carol", none, 4⟩]
      [] true "D9" "p9" 5242880 "image/png" KYC_MAX_FILE_SIZE
      KYC_ALLOWED_TYPES).2.2
      ⟨"D9", "ID_PROOF", none, "UPLOADING", "carol", none, 4⟩
      rfl (by decide) rfl⟩

/-- Concrete already-decided (VERIFIED) KYC document row used for C4. -/
def c4Doc : KYCDocument :=
  ⟨"D4", "ID_PROOF", some (cloudinaryUrl "p0"), "VERIFIED", "alice", some "b1", 0⟩

/-- C4 counterexample: `completeUpload` called on an already-VERIFIED row
succeeds and moves that same row back to PENDING (clearing `verifiedBy`) —
the code never checks the row's current status, so a decided row is not
immutable and re-entry into PENDING does not require a fresh row. -/
theorem completeUpload_resurrects_decided_row :
    c4Doc.status = "VERIFIED" ∧
      completeUpload [c4Doc] [] true "D4" "p1" 1000 "image/png"
          KYC_MAX_FILE_SIZE KYC_ALLOWED_TYPES =
        .ok (⟨"D4", "ID_PROOF", some (cloudinaryUrl "p1"), "PENDING", "alice",
            none, 0⟩,
          [⟨"D4", "ID_PROOF", some (cloudinaryUrl "p1"), "PENDING", "alice",
            none, 0⟩],
          [⟨none, "KYC_DOCUMENT_UPLOADED", none⟩]) :=
  ⟨rfl, rfl⟩

/-- C4 amended: a decided (VERIFIED or REJECTED) row can re-enter PENDING not
only via a new upload registration: any successful `completeUpload` on the
row's id — the code never inspects the current status — sets the row's status
to PENDING and clears `verifiedBy`; a new upload registration
(`generateUploadUrl`) instead appends a fresh row in UPLOADING status and
leaves all existing rows unchanged. -/
theorem kyc_resubmission_behaviour :
    (∀ (docs : List KYCDocument) (auditDb : List AuditLog) (auditOk : Bool)
      (kycDocId publicId : String) (fileSize : Nat) (contentType : String)
      (maxFileSize : Nat) (allowedTypes : List String)
      (doc : KYCDocument) (docs' : List KYCDocument) (auditDb' : List AuditLog),
      completeUpload docs auditDb auditOk kycDocId publicId fileSize contentType
          maxFileSize allowedTypes = .ok (doc, docs', auditDb') →
      doc.status = "PENDING" ∧ doc.verifiedBy = none ∧
        docs' = docs.map (fun x => if x.id == kycDocId
          then { x with
              url := some (cloudinaryUrl publicId)
              status := "PENDING"
              verifiedBy := none }
          else x)) ∧
    (∀ (docs : List KYCDocument) (userId docType newId publicId : String)
      (now : Nat) (doc : KYCDocument) (docs' : List KYCDocument),
      generateUploadUrl docs userId docType newId publicId now =
          .ok (doc, docs') →
      doc.status = "UPLOADING" ∧ docs' = docs ++ [doc]) := by
  constructor
  · intro docs auditDb auditOk kycDocId publicId fileSize contentType
      maxFileSize allowedTypes doc docs' auditDb' h
    unfold completeUpload at h
    split at h
    · exact Except.noConfusion h
    · split at h
      · exact Except.noConfusion h
      · unfold kycUpdate at h
        cases hfind : kycFindUnique docs kycDocId with
        | none =>
          rw [hfind] at h
          exact Except.noConfusion h
        | some d0 =>
          rw [hfind] at h
          rw [Except.ok.injEq, Prod.mk.injEq, Prod.mk.injEq] at h
          obtain ⟨h1, h2, _⟩ := h
          refine ⟨?_, ?_, ?_⟩
          · rw [← h1]
          · rw [← h1]
          · rw [← h2]
  · intro docs userId docType newId publicId now doc docs' h
    unfold generateUploadUrl at h
    split at h
    · exact Except.noConfusion h
    · unfold createKYCDocument at h
      rw [Except.ok.injEq, Prod.mk.injEq] at h
      obtain ⟨h1, h2⟩ := h
      constructor
      · rw [← h1]
      · rw [← h2, ← h1]

/-- Witness for C4 amended: applying it to the VERIFIED row of `c4Doc` shows
the returned row is PENDING with `verifiedBy` cleared. -/
theorem kyc_resubmission_behaviour_witness :
    (⟨"D4", "ID_PROOF", some (cloudinaryUrl "p1"), "PENDING", "alice", none, 0⟩
        : KYCDocument).status = "PENDING" ∧
      (⟨"D4", "ID_PROOF", some (cloudinaryUrl "p1"), "PENDING", "alice", none, 0⟩
        : KYCDocument).verifiedBy = none :=
  ⟨(kyc_resubmission_behaviour.1 [c4Doc] [] true "D4" "p1" 1000 "image/png"
      KYC_MAX_FILE_SIZE KYC_ALLOWED_TYPES _ _ _ rfl).1,
    (kyc_resubmission_behaviour.1 [c4Doc] [] true "D4" "p1" 1000 "image/png"
      KYC_MAX_FILE_SIZE KYC_ALLOWED_TYPES _ _ _ rfl).2.1⟩

/-- `KYCService.verifyKYCDocument(kycDocId, status, bankerId, notes)`
(kycService.js, lines 267-319): 400 unless the decision is VERIFIED or
REJECTED; updates the row — `status` to the decision, `verifiedBy` to the
reviewer only when VERIFIED, `null` otherwise — then appends a best-effort
audit entry, passing the already-prefixed action `KYC_VERIFIED` /
`KYC_REJECTED` to `createKYCAuditLog` (which prefixes `KYC_` again).  The
returned `action` string is the fourth component. -/
def verifyKYCDocument (docs : List KYCDocument) (auditDb : List AuditLog)
    (auditOk : Bool) (kycDocId status bankerId : String) (notes : String) :
    Except ApiError (KYCDocument × List KYCDocument × List AuditLog × String) :=
  if !(["VERIFIED", "REJECTED"].contains status) then
    .error ⟨"Status must be VERIFIED or REJECTED", 400⟩
  else
    match kycUpdate docs kycDocId (fun d =>
        { d with
            status := status
            verifiedBy := if status == "VERIFIED" then some bankerId else none }) with
    | .error e => .error e
    | .ok (doc, docs') =>
      let action := if status == "VERIFIED" then "KYC_VERIFIED" else "KYC_REJECTED"
      .ok (doc, docs', createKYCAuditLog auditDb auditOk action (some bankerId),
        action)

/-- Concrete PENDING KYC document row used for C6. -/
def c6Doc : KYCDocument :=
  ⟨"D6", "PAN_CARD", some (cloudinaryUrl "p6"), "PENDING", "carol", none, 3⟩

/-- C6: verifying a document does set `status := VERIFIED` and
`verifiedBy := reviewerId` as the claim states, but the persisted audit
entry's action tag is `KYC_KYC_VERIFIED`, not `KYC_VERIFIED`:
`verifyKYCDocument` passes the already-prefixed action to
`createKYCAuditLog`, which prefixes `KYC_` a second time. -/
theorem verifyKYCDocument_audit_double_prefix :
    verifyKYCDocument [c6Doc] [] true "D6" "VERIFIED" "b1" "ok" =
      .ok (⟨"D6", "PAN_CARD", some (cloudinaryUrl "p6"), "VERIFIED", "carol",
          some "b1", 3⟩,
        [⟨"D6", "PAN_CARD", some (cloudinaryUrl "p6"), "VERIFIED", "carol",
          some "b1", 3⟩],
        [⟨none, "KYC_KYC_VERIFIED", some "b1"⟩],
        "KYC_VERIFIED") ∧
      "KYC_KYC_VERIFIED" ≠ "KYC_VERIFIED" :=
  ⟨rfl, by decide⟩

/-- C8: audit-trail appends are best-effort.  For each state-changing loan /
KYC operation that writes an audit entry, the primary result — the returned
value and the updated primary table, everything except the audit table — is
the same whether the audit write succeeds (`auditOk = true`) or fails (the
failure being caught and swallowed inside `createAuditLog` /
`createKYCAuditLog`), and in particular a failed audit write never turns a
successful operation into an error. -/
theorem audit_write_failure_never_propagates :
    (∀ (loans : List Loan) (auditDb : List AuditLog) (auditOk : Bool)
      (loanType : String) (amount : Int) (merchantId : Option String)
      (userId newId : String) (now : Nat),
      ((createLoan loans auditDb auditOk loanType amount merchantId userId
          newId now).1,
        (createLoan loans auditDb auditOk loanType amount merchantId userId
          newId now).2.1) =
      ((createLoan loans auditDb true loanType amount merchantId userId
          newId now).1,
        (createLoan loans auditDb true loanType amount merchantId userId
          newId now).2.1)) ∧
    (∀ (loans : List Loan) (auditDb : List AuditLog) (auditOk : Bool)
      (loanId status userId notes : String) (now : Nat),
      (updateLoanStatus loans auditDb auditOk loanId status userId notes
          now).map (fun r => (r.1, r.2.1)) =
      (updateLoanStatus loans auditDb true loanId status userId notes
          now).map (fun r => (r.1, r.2.1))) ∧
    (∀ (docs : List KYCDocument) (auditDb : List AuditLog) (auditOk : Bool)
      (kycDocId publicId : String) (fileSize : Nat) (contentType : String)
      (maxFileSize : Nat) (allowedTypes : List String),
      (completeUpload docs auditDb auditOk kycDocId publicId fileSize
          contentType maxFileSize allowedTypes).map (fun r => (r.1, r.2.1)) =
      (completeUpload docs auditDb true kycDocId publicId fileSize
          contentType maxFileSize allowedTypes).map (fun r => (r.1, r.2.1))) ∧
    (∀ (docs : List KYCDocument) (auditDb : List AuditLog) (auditOk : Bool)
      (kycDocId status bankerId notes : String),
      (verifyKYCDocument docs auditDb auditOk kycDocId status bankerId
          notes).map (fun r => (r.1, r.2.1)) =
      (verifyKYCDocument docs auditDb true kycDocId status bankerId
          notes).map (fun r => (r.1, r.2.1))) := by
  refine ⟨?_, ?_, ?_, ?_⟩
  · intro loans auditDb auditOk loanType amount merchantId userId newId now
    rfl
  · intro loans auditDb auditOk loanId status userId notes now
    unfold updateLoanStatus
    split
    · rfl
    · cases loanUpdate loans loanId (fun l =>
          { l with status := status, bankerId := some userId, updatedAt := now }) with
      | error e => rfl
      | ok p => cases p with | mk a b => rfl
  · intro docs auditDb auditOk kycDocId publicId fileSize contentType
      maxFileSize allowedTypes
    unfold completeUpload
    split
    · rfl
    · split
      · rfl
      · cases kycUpdate docs kycDocId (fun d =>
            { d with
                url := some (cloudinaryUrl publicId)
                status := "PENDING"
                verifiedBy := none }) with
        | error e => rfl
        | ok p => cases p with | mk a b => rfl
  · intro docs auditDb auditOk kycDocId status bankerId notes
    unfold verifyKYCDocument
    split
    · rfl
    · cases kycUpdate docs kycDocId (fun d =>
          { d with
              status := status
              verifiedBy := if status == "VERIFIED" then some bankerId else none }) with
      | error e => rfl
      | ok p => cases p with | mk a b => rfl

/-- An entry of the required-documents list returned by
`KYCService.getRequiredDocuments`. -/
structure RequiredDoc where
  type : String
  displayName : String
  isRequired : Bool
  status : String
deriving DecidableEq, Repr

/-- The completion summary returned by
`KYCController.calculateKYCCompletion`.  `incomplete` is an integer because
the code's `totalRequired - completed - pending` can go negative. -/
structure KYCCompletion where
  percentComplete : Nat
  completed : Nat
  pending : Nat
  incomplete : Int
  status : String
  needsAction : Bool
deriving DecidableEq, Repr

/-- `Math.round((completed / totalRequired) * 100)` for `0 < t`, computed on
exact rationals: round-half-up of `100 * c / t` as the natural number
`(200 * c + t) / (2 * t)`. -/
def jsRound100 (c t : Nat) : Nat := (200 * c + t) / (2 * t)

/-- `KYCController.calculateKYCCompletion(documents, requiredDocs)`
(kycController.js, lines 291-317): `completedTypes` / `pendingTypes` are the
JS `Set`s of types of VERIFIED / PENDING documents (set membership modelled by
list membership of the mapped list); `completed` / `pending` count the
required entries whose type is in the respective set — a type that has both a
VERIFIED and a PENDING document is counted in both; `incomplete` is the
remainder and can be negative. -/
def calculateKYCCompletion (documents : List KYCDocument)
    (requiredDocs : List RequiredDoc) : KYCCompletion :=
  let completedTypes :=
    (documents.filter (fun d => d.status == "VERIFIED")).map (fun d => d.type)
  let pendingTypes :=
    (documents.filter (fun d => d.status == "PENDING")).map (fun d => d.type)
  let totalRequired := requiredDocs.length
  let completed :=
    (requiredDocs.filter (fun r => completedTypes.contains r.type)).length
  let pending :=
    (requiredDocs.filter (fun r => pendingTypes.contains r.type)).length
  let incomplete : Int := (totalRequired : Int) - completed - pending
  { percentComplete :=
      if 0 < totalRequired then jsRound100 completed totalRequired else 0
    completed := completed
    pending := pending
    incomplete := incomplete
    status :=
      if totalRequired == 0 then "NOT_REQUIRED"
      else if completed == totalRequired then "COMPLETE"
      else if 0 < pending then "IN_PROGRESS"
      else "INCOMPLETE"
    needsAction := decide (0 < (pending : Int) + incomplete) }

/-- The pending count asserted by the spec for `completionStatus`: required
types with a PENDING document where VERIFIED takes precedence (a type that
also has a VERIFIED document is not counted as pending).  Stated from the
spec's words, to be compared with `calculateKYCCompletion`. -/
def specPendingWithPrecedence (documents : List KYCDocument)
    (requiredDocs : List RequiredDoc) : Nat :=
  (requiredDocs.filter (fun r =>
    ((documents.filter (fun d => d.status == "PENDING")).map
        (fun d => d.type)).contains r.type &&
    !(((documents.filter (fun d => d.status == "VERIFIED")).map
        (fun d => d.type)).contains r.type))).length

/-- C5 counterexample data: 200 required types `T0` … `T199`; `T0` … `T198`
each have a VERIFIED document, and `T0` additionally has a PENDING one. -/
def c5Req : List RequiredDoc :=
  (List.range 200).map (fun i => ⟨"T" ++ toString i, "", true, "NOT_STARTED"⟩)

/-- The documents of the C5 counterexample. -/
def c5Docs : List KYCDocument :=
  (List.range 199).map
      (fun i => ⟨"", "T" ++ toString i, none, "VERIFIED", "u", none, 0⟩) ++
    [⟨"", "T0", none, "PENDING", "u", none, 0⟩]

set_option maxRecDepth 100000 in
/-- C5 counterexample: on this input the code returns `pending = 1` (the type
`T0` counts as pending even though it also has a VERIFIED document), while
the claim's VERIFIED-takes-precedence pending count is `0`; moreover
`percentComplete = 100` (round-half-up of 99.5) while `status` is
`IN_PROGRESS`, refuting `status == COMPLETE ↔ percentComplete == 100`. -/
theorem calculateKYCCompletion_claim_false :
    calculateKYCCompletion c5Docs c5Req =
        ⟨100, 199, 1, 0, "IN_PROGRESS", true⟩ ∧
      specPendingWithPrecedence c5Docs c5Req = 0 ∧
      (1 : Nat) ≠ 0 ∧ "IN_PROGRESS" ≠ "COMPLETE" :=
  ⟨rfl, rfl, by decide, by decide⟩

/-- `(200c + t) / (2t)` really is round-half-up of `100c / t`. -/
lemma jsRound100_eq_round (c t : Nat) (ht : 0 < t) :
    (jsRound100 c t : Int) = round ((c : ℚ) * 100 / (t : ℚ)) := by
  have ht' : (t : ℚ) ≠ 0 := (Nat.cast_pos.mpr ht).ne'
  rw [round_eq]
  have heq : (c : ℚ) * 100 / t + 1 / 2 =
      ((200 * c + t : ℕ) : ℚ) / ((2 * t : ℕ) : ℚ) := by
    push_cast
    field_simp
    ring
  rw [heq, Rat.floor_natCast_div_natCast]
  unfold jsRound100
  exact Int.ofNat_div _ _

/-- Membership in the mapped filtered list, as a single scan. -/
lemma contains_map_filter {α β : Type} [BEq β] (l : List α) (p : α → Bool)
    (f : α → β) (x : β) :
    (((l.filter p).map f).contains x) = l.any (fun a => x == f a && p a) := by
  induction l with
  | nil => rfl
  | cons a l ih =>
    cases hp : p a with
    | true =>
      simp only [List.filter_cons, hp, if_true, List.map_cons,
        List.contains_cons, List.any_cons, ih, Bool.and_true]
    | false =>
      simp only [List.filter_cons, hp, Bool.false_eq_true, if_false,
        List.any_cons, Bool.and_false, Bool.false_or, ih]

/-- The status if-chain of `calculateKYCCompletion` yields COMPLETE exactly
for a non-empty requirement list that is fully completed. -/
lemma status_if_complete_iff (tot c p : Nat) :
    (if tot == 0 then "NOT_REQUIRED"
      else if c == tot then "COMPLETE"
      else if 0 < p then "IN_PROGRESS"
      else "INCOMPLETE") = "COMPLETE" ↔ (tot ≠ 0 ∧ c = tot) := by
  by_cases h0 : tot = 0
  · subst h0
    simp
  · have h0' : (tot == 0) = false := by simp [h0]
    rw [h0']
    by_cases hc : c = tot
    · subst hc
      simp [h0]
    · have hc' : (c == tot) = false := by simp [hc]
      rw [hc']
      by_cases hp : 0 < p
      · simp [hp, hc, h0]
      · simp [hp, hc, h0]

/-- C5 amended: `completed` counts the required entries whose type has a
VERIFIED document and `pending` those whose type has a PENDING document — with
no precedence, so a type with both counts in both and `incomplete` =
`required − completed − pending` can be negative; `percentComplete` is 0 for an
empty requirement list and otherwise round-half-up of `completed/required ×
100`; and `status = COMPLETE` exactly when the requirement list is non-empty
and every required entry counted as completed. -/
theorem calculateKYCCompletion_characterization (documents : List KYCDocument)
    (requiredDocs : List RequiredDoc) :
    (calculateKYCCompletion documents requiredDocs).completed =
      (requiredDocs.filter (fun r =>
        documents.any (fun d => r.type == d.type && d.status == "VERIFIED"))).length ∧
    (calculateKYCCompletion documents requiredDocs).pending =
      (requiredDocs.filter (fun r =>
        documents.any (fun d => r.type == d.type && d.status == "PENDING"))).length ∧
    (calculateKYCCompletion documents requiredDocs).incomplete =
      (requiredDocs.length : Int) -
        (calculateKYCCompletion documents requiredDocs).completed -
        (calculateKYCCompletion documents requiredDocs).pending ∧
    (requiredDocs.length = 0 →
      (calculateKYCCompletion documents requiredDocs).percentComplete = 0) ∧
    (0 < requiredDocs.length →
      ((calculateKYCCompletion documents requiredDocs).percentComplete : Int) =
        round (((calculateKYCCompletion documents requiredDocs).completed : ℚ)
          * 100 / (requiredDocs.length : ℚ))) ∧
    ((calculateKYCCompletion documents requiredDocs).status = "COMPLETE" ↔
      requiredDocs.length ≠ 0 ∧
        (calculateKYCCompletion documents requiredDocs).completed =
          requiredDocs.length) := by
  have hfc : ∀ st : String,
      requiredDocs.filter (fun r =>
        (((documents.filter (fun d => d.status == st)).map
          (fun d => d.type)).contains r.type)) =
      requiredDocs.filter (fun r =>
        documents.any (fun d => r.type == d.type && d.status == st)) := by
    intro st
    apply List.filter_congr
    intro r _
    rw [contains_map_filter]
  refine ⟨?_, ?_, ?_, ?_, ?_, ?_⟩
  · show (requiredDocs.filter _).length = _
    rw [hfc "VERIFIED"]
  · show (requiredDocs.filter _).length = _
    rw [hfc "PENDING"]
  · rfl
  · intro h0
    show (if 0 < requiredDocs.length then _ else 0) = 0
    rw [h0]
    rfl
  · intro hpos
    show ((if 0 < requiredDocs.length then
        jsRound100 ((requiredDocs.filter _).length) requiredDocs.length
      else 0 : Nat) : Int) = _
    rw [if_pos hpos]
    exact jsRound100_eq_round _ _ hpos
  · exact status_if_complete_iff _ _ _

/-- Witness for C5 amended at a one-requirement input: the percentage is the
rounded ratio. -/
theorem calculateKYCCompletion_characterization_witness :
    ((calculateKYCCompletion
        [⟨"D5", "ID_PROOF", none, "VERIFIED", "u", some "b1", 0⟩]
        [⟨"ID_PROOF", "Government ID (Aadhaar/Passport)", true, "NOT_STARTED"⟩]).percentComplete : Int) =
      round (((calculateKYCCompletion
        [⟨"D5", "ID_PROOF", none, "VERIFIED", "u", some "b1", 0⟩]
        [⟨"ID_PROOF", "Government ID (Aadhaar/Passport)", true, "NOT_STARTED"⟩]).completed : ℚ)
        * 100 /
        (([⟨"ID_PROOF", "Government ID (Aadhaar/Passport)", true, "NOT_STARTED"⟩]
          : List RequiredDoc).length : ℚ)) :=
  (calculateKYCCompletion_characterization
    [⟨"D5", "ID_PROOF", none, "VERIFIED", "u", some "b1", 0⟩]
    [⟨"ID_PROOF", "Government ID (Aadhaar/Passport)", true, "NOT_STARTED"⟩]).2.2.2.2.1
    (by decide)

/-- `KYCService.getDocTypeName(type)` (kycService.js, lines 395-403): the
display-name lookup table, falling back to the raw type. -/
def getDocTypeName (t : String) : String :=
  if t == "ID_PROOF" then "Government ID (Aadhaar/Passport)"
  else if t == "ADDRESS_PROOF" then "Address Proof (Utility Bill/Bank Statement)"
  else if t == "PAN_CARD" then "PAN Card"
  else if t == "BANK_STATEMENT" then "Bank Statement (Last 6 months)"
  else t

/-- The `baseRequirements` role table of `KYCService.getRequiredDocuments`
(kycService.js, lines 409-415): unknown roles fall back to `[]`. -/
def baseRequirements (userRole : String) : List String :=
  if userRole == "CUSTOMER" then ["ID_PROOF", "ADDRESS_PROOF", "PAN_CARD"]
  else if userRole == "MERCHANT" then
    ["ID_PROOF", "ADDRESS_PROOF", "PAN_CARD", "BANK_STATEMENT"]
  else if userRole == "BANKER" then []
  else []

/-- The `loanSpecific` table of `getRequiredDocuments`: extra required types
per loan type, `[]` for unknown types. -/
def loanSpecificDocs (loanType : String) : List String :=
  if loanType == "BUSINESS" then ["BANK_STATEMENT"]
  else if loanType == "VEHICLE" then ["ADDRESS_PROOF"]
  else if loanType == "EQUIPMENT" then ["BANK_STATEMENT"]
  else []

/-- `[...new Set(list)]`: JavaScript `Set` insertion-order deduplication —
the first occurrence of each element is kept. -/
def jsSetDedup (seen : List String) : List String → List String
  | [] => []
  | x :: xs =>
    if seen.contains x then jsSetDedup seen xs
    else x :: jsSetDedup (x :: seen) xs

/-- `KYCService.getRequiredDocuments(userRole, loanType)` (kycService.js,
lines 408-433): the base role table, extended (when `loanType` is truthy) with
the loan-specific types and deduplicated via a JS `Set`, then mapped to
display records. -/
def getRequiredDocuments (userRole : String) (loanType : Option String) :
    List RequiredDoc :=
  let base := baseRequirements userRole
  let requirements :=
    match loanType with
    | some t => if t != "" then jsSetDedup [] (base ++ loanSpecificDocs t) else base
    | none => base
  requirements.map (fun t => ⟨t, getDocTypeName t, true, "NOT_STARTED"⟩)

/-- Membership in the deduplicated list. -/
lemma mem_jsSetDedup (l : List String) : ∀ (seen : List String) (x : String),
    x ∈ jsSetDedup seen l ↔ (x ∈ l ∧ seen.contains x = false) := by
  induction l with
  | nil =>
    intro seen x
    simp [jsSetDedup]
  | cons a l ih =>
    intro seen x
    simp only [jsSetDedup]
    by_cases hc : seen.contains a = true
    · rw [if_pos hc, ih seen x]
      constructor
      · rintro ⟨hl, hx⟩
        exact ⟨List.mem_cons_of_mem a hl, hx⟩
      · rintro ⟨hor, hx⟩
        rcases List.mem_cons.mp hor with h | h
        · subst h
          rw [hc] at hx
          exact Bool.noConfusion hx
        · exact ⟨h, hx⟩
    · have hc' : seen.contains a = false := Bool.eq_false_iff.mpr hc
      rw [if_neg hc, List.mem_cons, ih (a :: seen) x, List.mem_cons,
        List.contains_cons]
      constructor
      · rintro (h | ⟨hl, hx⟩)
        · subst h
          exact ⟨Or.inl rfl, hc'⟩
        · have hx1 : (x == a) = false := by
            cases hxa : x == a with
            | true => rw [hxa] at hx; exact Bool.noConfusion hx
            | false => rfl
          have hx2 : seen.contains x = false := by
            rw [hx1] at hx
            simpa using hx
          exact ⟨Or.inr hl, hx2⟩
      · rintro ⟨h | h, hx⟩
        · exact Or.inl h
        · by_cases hxa : x = a
          · exact Or.inl hxa
          · refine Or.inr ⟨h, ?_⟩
            rw [beq_eq_false_iff_ne.mpr hxa, hx]
            rfl

/-- `Set`-deduplication yields a duplicate-free list. -/
lemma jsSetDedup_nodup (l : List String) : ∀ seen : List String,
    (jsSetDedup seen l).Nodup := by
  induction l with
  | nil =>
    intro seen
    simp [jsSetDedup]
  | cons a l ih =>
    intro seen
    simp only [jsSetDedup]
    by_cases hc : seen.contains a = true
    · rw [if_pos hc]
      exact ih seen
    · rw [if_neg hc]
      refine List.nodup_cons.mpr ⟨?_, ih (a :: seen)⟩
      intro hmem
      have hx := ((mem_jsSetDedup l (a :: seen) a).mp hmem).2
      rw [List.contains_cons] at hx
      simp at hx

/-- C10: for every role and loan type, the required-documents list contains
no duplicate document types, and its set of types is a superset of the types
required with no loan type.  (Determinism holds by construction: the embedding
is a pure function of `(userRole, loanType)`, exactly as the JS function reads
only its arguments and a constant table.) -/
theorem getRequiredDocuments_nodup_superset (userRole : String)
    (loanType : Option String) :
    ((getRequiredDocuments userRole loanType).map (fun d => d.type)).Nodup ∧
    ∀ x ∈ (getRequiredDocuments userRole none).map (fun d => d.type),
      x ∈ (getRequiredDocuments userRole loanType).map (fun d => d.type) := by
  have hbase : (baseRequirements userRole).Nodup := by
    unfold baseRequirements
    split
    · decide
    · split
      · decide
      · split
        · decide
        · decide
  have hmap : ∀ reqs : List String,
      ((reqs.map (fun t =>
        (⟨t, getDocTypeName t, true, "NOT_STARTED"⟩ : RequiredDoc))).map
          (fun d => d.type)) = reqs := by
    intro reqs
    rw [List.map_map]
    exact List.map_id reqs
  unfold getRequiredDocuments
  cases loanType with
  | none =>
    simp only [hmap]
    exact ⟨hbase, fun x hx => hx⟩
  | some t =>
    by_cases ht : (t != "") = true
    · simp only [ht, if_true]
      simp only [hmap]
      refine ⟨jsSetDedup_nodup _ [], fun x hx => ?_⟩
      exact (mem_jsSetDedup _ [] x).mpr ⟨List.mem_append_left _ hx, rfl⟩
    · have ht' : (t != "") = false := Bool.eq_false_iff.mpr ht
      simp only [ht', if_false]
      simp only [hmap]
      exact ⟨hbase, fun x hx => hx⟩

/-- Witness for C10: ID_PROOF is required of a MERCHANT with a VEHICLE loan,
obtained through the superset direction of the theorem. -/
theorem getRequiredDocuments_nodup_superset_witness :
    "ID_PROOF" ∈ (getRequiredDocuments "MERCHANT" (some "VEHICLE")).map
      (fun d => d.type) :=
  (getRequiredDocuments_nodup_superset "MERCHANT" (some "VEHICLE")).2
    "ID_PROOF" (by decide)

end Fintech
